import Mathlib

/-!
Shallow embedding of the kedro-polis san-juan-islands repository, covering:

* `src/kedro_polis_classic/datasets/polis_api.py` — URL parsing
  (`_parse_polis_url`), `PolisAPIDataset.__init__` identifier
  classification, the `load` dispatcher, the three loaders (with the
  TLS→HTTP fallback of `load_from_csv` / `load_from_api`), and `save`.
* `src/kedro_polis_classic/pipelines/geographic/nodes.py` — vote
  filtering (`filter_votes_for_islands`), island aggregation
  (`aggregate_participant_islands`), rejection sampling
  (`random_point_in_polygon`) and coordinate assignment
  (`assign_participant_coordinates`).

External collaborators (the `reddwarf` Loader, the network, the file
system, `urlparse`, shapely geometries, the random number generator)
are modelled as explicit parameters: a `World` record for I/O, a
`Polygon` interface record for geometry, and an indexed stream of unit
uniform draws for `random`.
-/

/-! ## String helpers (Python `str` operations used by the source) -/

/-- `listIsPrefixBool p s` — Python `s.startswith(p)` on character lists. -/
def listIsPrefixBool : List Char → List Char → Bool
  | [], _ => true
  | _ :: _, [] => false
  | p :: ps, c :: cs => p == c && listIsPrefixBool ps cs

/-- Python `s.startswith(p)`. -/
def strStartsWith (s p : String) : Bool :=
  listIsPrefixBool p.toList s.toList

/-- Python `s.strip("/")` on character lists: drop leading and trailing slashes. -/
def stripSlashes (s : List Char) : List Char :=
  ((s.dropWhile (· == '/')).reverse.dropWhile (· == '/')).reverse

/-- Python `s.split(c)` on character lists (single-character separator). -/
def splitCharAux (c : Char) : List Char → List Char → List (List Char)
  | [], acc => [acc.reverse]
  | x :: xs, acc =>
    if x == c then acc.reverse :: splitCharAux c xs []
    else splitCharAux c xs (x :: acc)

/-- `path.strip("/").split("/")` from `_parse_polis_url` (polis_api.py line 26). -/
def pathParts (path : String) : List String :=
  (splitCharAux '/' (stripSlashes path.toList) []).map fun l => String.mk l

/-- Python `s.replace(old, new)`: replace all non-overlapping occurrences,
left to right. Fuel is the length of the subject string, which bounds the
number of loop steps for a non-empty pattern. -/
def replaceAllAux (pat rep : List Char) : Nat → List Char → List Char
  | _, [] => []
  | 0, s => s
  | fuel + 1, c :: rest =>
    if listIsPrefixBool pat (c :: rest) then
      rep ++ replaceAllAux pat rep fuel (List.drop (pat.length - 1) rest)
    else
      c :: replaceAllAux pat rep fuel rest

/-- Python `s.replace(old, new)` on strings. -/
def strReplace (s pat rep : String) : String :=
  String.mk (replaceAllAux pat.toList rep.toList s.toList.length s.toList)

/-- Truthiness of an optional Python string: `None` and `""` are falsy. -/
def truthyS : Option String → Bool
  | none => false
  | some s => !s.isEmpty

/-! ## Data model for the dataset layer (polis_api.py) -/

/-- Tabular data held by a pandas DataFrame; treated as uninterpreted rows. -/
abbrev Table := List (List String)

/-- The `{"comments": ..., "votes": ...}` dictionary returned by every loader. -/
structure RawDataset where
  comments : Table
  votes : Table
deriving DecidableEq

/-- Result of Python's `urlparse` on the input URL: the fields the source reads. -/
structure UrlParts where
  scheme : String
  netloc : String
  path : String
deriving DecidableEq

/-- Transport-layer outcome of a remote load attempt: a TLS/SSL negotiation
failure (`ssl.SSLError` / `requests.exceptions.SSLError`) or any other
exception. -/
inductive LoadErr where
  | tls (msg : String)
  | other (msg : String)
deriving DecidableEq

/-- Errors surfaced by the dataset layer. -/
inductive PError where
  | valueErr (msg : String)
  | loadErr (e : LoadErr)
  | notImplemented (msg : String)
deriving DecidableEq

/-- Mutable attributes of a `PolisAPIDataset` instance after `__init__`. -/
structure DatasetState where
  polis_id : Option String
  base_url : String
  polis_url : Option UrlParts
  repair_is_meta_column : Bool
  import_dir : Option String
  report_id : Option String
  conversation_id : Option String
deriving DecidableEq

/-- Content of a local import directory, as surfaced by the external
`reddwarf` Loader when given the four well-known file paths:
`conversation_id` is the value of the `"conversation_id"` field of
`conversation.json` (polis_api.py line 212). -/
structure DirContent where
  comments : Table
  votes : Table
  conversation_id : String
deriving DecidableEq

/-- The two remote query shapes issued through the `reddwarf` Loader:
`csv_export` with a report id (polis_api.py lines 123-127) and the live
API with a conversation id (lines 166-168). -/
inductive RemoteReq where
  | csvExport (report_id : String)
  | api (conversation_id : String)
deriving DecidableEq

/-- The external world: remote load attempts (parameterised by the query and
the instance base URL) and local directory content. -/
structure World where
  remote : RemoteReq → String → Except LoadErr RawDataset
  dir : String → Option DirContent

/-! ## `_parse_polis_url` (polis_api.py lines 8-48) -/

/-- `len(path_parts) >= 2 and path_parts[-2] == "report"` (line 34). -/
def isReportPath (parts : List String) : Bool :=
  match parts.reverse with
  | _ :: b :: _ => b == "report"
  | _ => false

/-- Error message of lines 29-31 (the formatted URL text is elided). -/
def invalidUrlMsg : String :=
  "Invalid polis URL format"

/-- Error message of lines 44-46 (the formatted URL text is elided). -/
def convUrlMsg : String :=
  "Conversation URL should not contain report ID"

/-- `_parse_polis_url` (lines 8-48): split the path, classify report vs
conversation URL, normalise the report marker. The empty-list branch of
the Python `if not path_parts` test is the `getLast? = none` case. -/
def _parse_polis_url (u : UrlParts) : Except String (String × String) :=
  let base_url := u.scheme ++ "://" ++ u.netloc
  let path_parts := pathParts u.path
  match path_parts.getLast? with
  | none => .error invalidUrlMsg
  | some lastSeg =>
    if lastSeg = "" then .error invalidUrlMsg
    else if isReportPath path_parts then
      if strStartsWith lastSeg "r" then .ok (base_url, lastSeg)
      else .ok (base_url, "r" ++ lastSeg)
    else
      if strStartsWith lastSeg "r" then .error convUrlMsg
      else .ok (base_url, lastSeg)

/-! ## `PolisAPIDataset.__init__` (polis_api.py lines 52-96) -/

/-- Lines 75-96 of `__init__`: classify `polis_id` into `report_id` or
`conversation_id`, skipped when `import_dir` is set. The incoming state has
`report_id = none` and `conversation_id = none` (lines 76-77). -/
def classifyIds (s : DatasetState) : Except String DatasetState :=
  if truthyS s.import_dir then .ok s
  else if truthyS s.polis_id then
    let pid := s.polis_id.getD ""
    if strStartsWith pid "r" then .ok { s with report_id := some pid }
    else if (pid.toList.headD ' ').isDigit then .ok { s with conversation_id := some pid }
    else .error "polis_id must start with 'r' (for report_id) or a digit (for conversation_id)"
  else .error "Either polis_id, polis_url, or import_dir must be provided"

/-- `PolisAPIDataset.__init__` (lines 52-96, part). The `polis_url` argument is
given pre-parsed (`urlparse` is external); its Python truthiness is its
presence. -/
def PolisAPIDataset.init (polis_id base_url : Option String) (polis_url : Option UrlParts)
    (repair_is_meta_column : Bool) (import_dir : Option String) :
    Except String DatasetState :=
  match polis_url with
  | some u =>
    if truthyS polis_id || truthyS base_url then
      .error "Cannot specify both polis_url and polis_id/base_url parameters"
    else
      match _parse_polis_url u with
      | .error e => .error e
      | .ok (b, pid) =>
        classifyIds
          { polis_id := some pid, base_url := b, polis_url := some u,
            repair_is_meta_column := repair_is_meta_column, import_dir := import_dir,
            report_id := none, conversation_id := none }
  | none =>
    classifyIds
      { polis_id := polis_id,
        base_url := if truthyS base_url then base_url.getD "" else "https://pol.is",
        polis_url := none,
        repair_is_meta_column := repair_is_meta_column, import_dir := import_dir,
        report_id := none, conversation_id := none }

/-! ## Loaders and the `load` dispatcher (polis_api.py lines 98-229) -/

/-- The shared try/except structure of `load_from_csv` (lines 121-148) and
`load_from_api` (lines 165-188): attempt the load against `base_url`; on an
SSL error, and only when `base_url` starts with `"https://"`, retry exactly
once against `base_url.replace("https://", "http://")` and return that
attempt's outcome unchanged (the retry is not guarded by a handler); any
other first-attempt failure, or an SSL failure on a non-https base URL, is
re-raised unchanged. The second component records the URLs attempted, in
order (the downgrade is observable: the source prints a message). -/
def tlsFallbackLoad {α : Type} (attempt : String → Except LoadErr α) (base_url : String) :
    Except LoadErr α × List String :=
  match attempt base_url with
  | .ok d => (.ok d, [base_url])
  | .error (.tls m) =>
    if strStartsWith base_url "https://" then
      let http_base_url := strReplace base_url "https://" "http://"
      (attempt http_base_url, [base_url, http_base_url])
    else (.error (.tls m), [base_url])
  | .error (.other m) => (.error (.other m), [base_url])

/-- `load_from_csv` (lines 109-151): requires a truthy `report_id`, issues a
`csv_export` Loader query through the TLS fallback. -/
def load_from_csv (s : DatasetState) (world : World) :
    Except PError (DatasetState × RawDataset) :=
  if truthyS s.report_id = false then
    .error (.valueErr "report_id is required for loading from CSV")
  else
    match (tlsFallbackLoad (world.remote (.csvExport (s.report_id.getD ""))) s.base_url).1 with
    | .ok raw => .ok (s, raw)
    | .error e => .error (.loadErr e)

/-- `load_from_api` (lines 153-191): requires a truthy `conversation_id`,
issues a live-API Loader query through the TLS fallback. -/
def load_from_api (s : DatasetState) (world : World) :
    Except PError (DatasetState × RawDataset) :=
  if truthyS s.conversation_id = false then
    .error (.valueErr "conversation_id is required for loading from API")
  else
    match (tlsFallbackLoad (world.remote (.api (s.conversation_id.getD ""))) s.base_url).1 with
    | .ok raw => .ok (s, raw)
    | .error e => .error (.loadErr e)

/-- `load_from_directory` (lines 193-226): requires a truthy `import_dir`,
reads the four well-known files via the Loader (modelled by `World.dir`), and
overwrites `conversation_id` and `polis_id` with the conversation id found in
the directory's `conversation.json` (lines 212-217). The environment-variable
side effect of line 220 is outside the model. -/
def load_from_directory (s : DatasetState) (world : World) :
    Except PError (DatasetState × RawDataset) :=
  if truthyS s.import_dir = false then
    .error (.valueErr "import_dir is required for loading from directory")
  else
    match world.dir (s.import_dir.getD "") with
    | none => .error (.loadErr (.other "failed to read import directory"))
    | some c =>
      .ok ({ s with conversation_id := some c.conversation_id,
                    polis_id := some c.conversation_id },
           { comments := c.comments, votes := c.votes })

/-- `load` (lines 98-107): dispatch on `import_dir`, then `report_id`, then
`conversation_id`. -/
def PolisAPIDataset.load (s : DatasetState) (world : World) :
    Except PError (DatasetState × RawDataset) :=
  if truthyS s.import_dir then load_from_directory s world
  else if truthyS s.report_id then load_from_csv s world
  else if truthyS s.conversation_id then load_from_api s world
  else .error (.valueErr "No valid parameters provided for loading data")

/-- `save` (lines 228-229): unconditionally raises `NotImplementedError`. -/
def PolisAPIDataset.save (_s : DatasetState) (_data : RawDataset) : Except PError Unit :=
  .error (.notImplemented "Saving to Polis API is not supported.")

/-! ## Geographic pipeline data model (geographic/nodes.py) -/

/-- A row of the votes DataFrame: the three columns the pipeline reads. -/
structure Vote where
  participant_id : Int
  statement_id : Int
  vote : Int
deriving DecidableEq

/-- The `statement_to_island` mapping (nodes.py lines 21-26 and 52-57). -/
def statementToIsland : Int → Option String
  | 64 => some "Orcas Island"
  | 65 => some "Lopez Island"
  | 66 => some "San Juan Island"
  | 67 => some "Shaw Island"
  | _ => none

/-- `island_statements = list(statement_to_island.keys())` (line 27). -/
def island_statements : List Int := [64, 65, 66, 67]

/-- `filter_votes_for_islands` (lines 10-35): keep rows with `vote == 1`,
then rows whose `statement_id` is an island statement. -/
def filter_votes_for_islands (votes : List Vote) : List Vote :=
  ((votes.filter fun v => v.vote == 1).filter fun v =>
    island_statements.contains v.statement_id)

/-- The island names a participant's filtered votes map to, in row order:
`filtered_votes.groupby("participant_id")["statement_id"].apply(...)`
restricted to one participant (lines 60-64). All statement ids in the
filtered frame are keys of `statement_to_island`, so `filterMap` drops
nothing there. -/
def groupIslands (filtered : List Vote) (pid : Int) : List String :=
  (filtered.filter fun v => v.participant_id == pid).filterMap fun v =>
    statementToIsland v.statement_id

/-- The participant ids appearing in the filtered votes, deduplicated and
sorted ascending — pandas `groupby` sorts its keys, and `.to_dict()`
preserves that order. -/
def votedParticipants (filtered : List Vote) : List Int :=
  ((filtered.map fun v => v.participant_id).dedup).mergeSort fun a b => a ≤ b

/-- `aggregate_participant_islands` (lines 38-73) as an ordered association
list standing for the Python dict: the grouped voters first (lines 59-64),
then every participant of the boolean `participant_mask` with a `True` value
and no island votes, mapped to `["Other"]` (lines 66-71). -/
def aggregate_participant_islands (filtered : List Vote) (mask : List (Int × Bool)) :
    List (Int × List String) :=
  let keys := votedParticipants filtered
  let base := keys.map fun p => (p, groupIslands filtered p)
  let included := (mask.filter fun e => e.2).map fun e => e.1
  base ++ ((included.filter fun p => !(keys.contains p)).map fun p => (p, ["Other"]))

/-! ## Geometry and randomness model -/

/-- The shapely interface the pipeline uses (spec §1: a geometry type
supporting bounding-box query and point-containment). `contains` answers
`polygon.contains(Point(x, y))`; `is_empty` drives Python truthiness of a
geometry (`bool(geom) = not geom.is_empty`), which the `if poly:` test at
nodes.py line 195 relies on. Coordinates are idealised as reals. -/
structure Polygon where
  minx : ℝ
  miny : ℝ
  maxx : ℝ
  maxy : ℝ
  contains : ℝ × ℝ → Bool
  is_empty : Bool

/-- `random.uniform(a, b) = a + (b - a) * u` for a unit draw `u`. -/
noncomputable def pyUniform (a b u : ℝ) : ℝ := a + (b - a) * u

/-- `random_point_in_polygon` (nodes.py lines 118-134). The source is an
unguarded `while True` loop drawing a uniform point in the bounding box and
returning it once containment holds; randomness is an indexed stream `rng`
of unit draws consumed two per iteration starting at index `i`, and the
loop is unrolled on `fuel`: `none` means the loop has not returned within
`fuel` iterations. On success the point and the next unused stream index
are returned. -/
noncomputable def randomPointInPolygonAux (poly : Polygon) (rng : Nat → ℝ) :
    Nat → Nat → Option ((ℝ × ℝ) × Nat)
  | 0, _ => none
  | fuel + 1, i =>
    let x := pyUniform poly.minx poly.maxx (rng i)
    let y := pyUniform poly.miny poly.maxy (rng (i + 1))
    if poly.contains (x, y) then some ((x, y), i + 2)
    else randomPointInPolygonAux poly rng fuel (i + 2)

/-- `island_size_priority.get(x, 0)` (nodes.py lines 155-161 and 168). -/
def island_size_priority : String → Nat
  | "San Juan Island" => 4
  | "Orcas Island" => 3
  | "Lopez Island" => 2
  | "Shaw Island" => 1
  | "Other" => 0
  | _ => 0

/-- Lines 163-172 of `assign_participant_coordinates`: with more than one
candidate island, stable-sort by size priority ascending and take the head
(`sorted(...)` then `[0]`); otherwise take the sole element (`islands[0]`;
the input lists are non-empty by construction, so `headD ""` is only a
totalisation of the impossible empty case). -/
def chooseIsland (islands : List String) : String :=
  if 1 < islands.length then
    ((islands.mergeSort fun a b =>
        island_size_priority a ≤ island_size_priority b).headD "")
  else islands.headD ""

/-- The fixed "Other" disk center `(-122.5, 48.5)` (nodes.py line 177). -/
noncomputable def otherRegionCenter : ℝ × ℝ := (-122.5, 48.5)

/-- The fixed "Other" disk radius `0.1` (nodes.py line 178). -/
noncomputable def otherRegionRadius : ℝ := 0.1

/-- Lines 183-185: `angle = random.uniform(0, 2π)`, `r = radius *
sqrt(random.uniform(0, 1))`, point `(cx + r cos angle, cy + r sin angle)`,
with the two unit draws `u1` (angle) and `u2` (radius) made explicit. -/
noncomputable def otherRegionCoords (u1 u2 : ℝ) : ℝ × ℝ :=
  let angle := pyUniform 0 (2 * Real.pi) u1
  let r := otherRegionRadius * Real.sqrt (pyUniform 0 1 u2)
  (otherRegionCenter.1 + r * Real.cos angle, otherRegionCenter.2 + r * Real.sin angle)

/-- A GeoJSON participant feature (nodes.py lines 187-191 / 197-201):
`properties.participant_id`, `properties.island`, point coordinates. -/
structure Feature where
  participant_id : Int
  island : String
  coordinates : ℝ × ℝ

/-- The loop body of `assign_participant_coordinates` (nodes.py lines
163-202) over the remaining `(pid, islands)` items, threading the random
stream index `i`. An "Other" placement consumes two draws; a polygon
placement runs `random_point_in_polygon` (with `fuel` iterations allowed
per call — `none` propagates its non-termination); a resolved island whose
shape is missing from `island_shapes` or whose geometry is falsy (`if
poly:`) appends nothing. -/
noncomputable def assignGo (island_shapes : List (String × Polygon)) (rng : Nat → ℝ)
    (fuel : Nat) : List (Int × List String) → Nat → Option (List Feature)
  | [], _ => some []
  | (pid, islands) :: rest, i =>
    let island_name := chooseIsland islands
    if island_name == "Other" then
      (assignGo island_shapes rng fuel rest (i + 2)).map
        (Feature.mk pid island_name (otherRegionCoords (rng i) (rng (i + 1))) :: ·)
    else
      match island_shapes.lookup island_name with
      | none => assignGo island_shapes rng fuel rest i
      | some poly =>
        if poly.is_empty then assignGo island_shapes rng fuel rest i
        else
          match randomPointInPolygonAux poly rng fuel i with
          | none => none
          | some (pt, j) =>
            (assignGo island_shapes rng fuel rest j).map
              (Feature.mk pid island_name pt :: ·)

/-- `assign_participant_coordinates` (nodes.py lines 137-204). -/
noncomputable def assign_participant_coordinates
    (participant_islands : List (Int × List String))
    (island_shapes : List (String × Polygon)) (rng : Nat → ℝ) (fuel : Nat) :
    Option (List Feature) :=
  assignGo island_shapes rng fuel participant_islands 0

/-- Whether the loop body emits a feature for a participant with candidate
list `islands`: either the resolved island is `"Other"`, or it has a truthy
shape in `island_shapes`. -/
def emitsFeature (island_shapes : List (String × Polygon)) (islands : List String) : Bool :=
  let island_name := chooseIsland islands
  island_name == "Other" ||
    match island_shapes.lookup island_name with
    | none => false
    | some poly => !poly.is_empty

/-! ## C10 — `save` is read-only -/

/-- C10: For every `PolisAPIDataset` instance and every input data
dictionary, calling `save` always raises `NotImplementedError` and performs
no write — the dataset is read-only at its public interface. -/
theorem c10_save_always_raises (s : DatasetState) (data : RawDataset) :
    PolisAPIDataset.save s data =
      .error (.notImplemented "Saving to Polis API is not supported.") := rfl

/-! ## C1 — TLS→HTTP downgrade retry -/

/-- C1: For every remote load (`load_from_csv` with a report id, or
`load_from_api` with a conversation id): if the first attempt raises a
TLS/SSL negotiation error and the base endpoint starts with `"https://"`,
exactly one retry is made against the same host with `"http://"`
substituted and its result is returned (so a retry failure also propagates
unmodified); any non-TLS failure on the first attempt, and any TLS failure
when the endpoint is not https, propagates unmodified with no further
retries. The attempted-URL trace makes "exactly one retry" explicit, and
the last two conjuncts show both remote loaders route through this
fallback with the strategy-appropriate query. -/
theorem c1_tls_downgrade_retry {α : Type} (attempt : String → Except LoadErr α)
    (base_url m : String) (s : DatasetState) (world : World) :
    (attempt base_url = .error (.tls m) → strStartsWith base_url "https://" = true →
      tlsFallbackLoad attempt base_url =
        (attempt (strReplace base_url "https://" "http://"),
         [base_url, strReplace base_url "https://" "http://"])) ∧
    (attempt base_url = .error (.other m) →
      tlsFallbackLoad attempt base_url = (.error (.other m), [base_url])) ∧
    (attempt base_url = .error (.tls m) → strStartsWith base_url "https://" = false →
      tlsFallbackLoad attempt base_url = (.error (.tls m), [base_url])) ∧
    (truthyS s.report_id = true →
      load_from_csv s world =
        match (tlsFallbackLoad (world.remote (.csvExport (s.report_id.getD ""))) s.base_url).1 with
        | .ok raw => .ok (s, raw)
        | .error e => .error (.loadErr e)) ∧
    (truthyS s.conversation_id = true →
      load_from_api s world =
        match (tlsFallbackLoad (world.remote (.api (s.conversation_id.getD ""))) s.base_url).1 with
        | .ok raw => .ok (s, raw)
        | .error e => .error (.loadErr e)) := by
  refine ⟨?_, ?_, ?_, ?_, ?_⟩
  · intro h1 h2
    simp [tlsFallbackLoad, h1, h2]
  · intro h1
    simp [tlsFallbackLoad, h1]
  · intro h1 h2
    simp [tlsFallbackLoad, h1, h2]
  · intro h1
    simp [load_from_csv, h1]
  · intro h1
    simp [load_from_api, h1]

/-- A concrete world whose secure endpoint always fails TLS negotiation and
whose plaintext endpoint succeeds. -/
def tlsFailWorld : World where
  remote := fun _ u =>
    if u = "https://pol.is" then .error (.tls "boom")
    else .ok { comments := [], votes := [] }
  dir := fun _ => none

/-- A dataset state configured with a report id against the default base URL. -/
def reportState : DatasetState where
  polis_id := some "r7xyz"
  base_url := "https://pol.is"
  polis_url := none
  repair_is_meta_column := true
  import_dir := none
  report_id := some "r7xyz"
  conversation_id := none

/-- Witness for C1 at a concrete world: the TLS failure on the https
endpoint leads to exactly one retry against the http substitution, whose
result is returned, and `load_from_csv` consumes that fallback. -/
theorem c1_tls_downgrade_retry_witness :
    tlsFallbackLoad (tlsFailWorld.remote (.csvExport "r7xyz")) "https://pol.is" =
      (tlsFailWorld.remote (.csvExport "r7xyz")
          (strReplace "https://pol.is" "https://" "http://"),
       ["https://pol.is", strReplace "https://pol.is" "https://" "http://"]) ∧
    load_from_csv reportState tlsFailWorld =
      match (tlsFallbackLoad (tlsFailWorld.remote (.csvExport "r7xyz")) "https://pol.is").1 with
      | .ok raw => .ok (reportState, raw)
      | .error e => .error (.loadErr e) :=
  ⟨(c1_tls_downgrade_retry (tlsFailWorld.remote (.csvExport "r7xyz")) "https://pol.is" "boom"
      reportState tlsFailWorld).1 (by rfl) (by decide),
   (c1_tls_downgrade_retry (tlsFailWorld.remote (.csvExport "r7xyz")) "https://pol.is" "boom"
      reportState tlsFailWorld).2.2.2.1 (by rfl)⟩

/-! ## C7 — directory override wins and determines the canonical id -/

/-- C7: When a directory override is supplied, `load` dispatches to the
directory loader regardless of any identifier also supplied, and the
canonical id (`polis_id` / `conversation_id`) after loading equals the
conversation identifier read from the directory's metadata file content,
not any pre-supplied id. -/
theorem c7_directory_override_wins (s : DatasetState) (world : World) (d : String)
    (c : DirContent) (hd : s.import_dir = some d) (hne : d.isEmpty = false)
    (hc : world.dir d = some c) :
    PolisAPIDataset.load s world = load_from_directory s world ∧
    PolisAPIDataset.load s world =
      .ok ({ s with conversation_id := some c.conversation_id,
                    polis_id := some c.conversation_id },
           { comments := c.comments, votes := c.votes }) := by
  have ht' : truthyS (some d) = true := by simp [truthyS, hne]
  have ht : truthyS s.import_dir = true := by rw [hd]; exact ht'
  refine ⟨?_, ?_⟩
  · simp [PolisAPIDataset.load, ht]
  · simp [PolisAPIDataset.load, load_from_directory, ht, hd, hc, ht']

/-- A dataset state carrying both a pre-supplied report identifier and
an input directory override. -/
def dirAndIdState : DatasetState where
  polis_id := some "r7xyz"
  base_url := "https://pol.is"
  polis_url := none
  repair_is_meta_column := true
  import_dir := some "fixtures"
  report_id := some "r7xyz"
  conversation_id := some "999"

/-- A world whose import directory declares conversation id `"12345"`. -/
def dirWorld : World where
  remote := fun _ _ => .error (.other "network disabled")
  dir := fun p =>
    if p = "fixtures" then some { comments := [], votes := [], conversation_id := "12345" }
    else none

/-- Witness for C7: with both a report id and a directory supplied, `load`
takes the directory branch and the canonical id becomes `"12345"` from the
directory metadata, overriding the pre-supplied ids. -/
theorem c7_directory_override_wins_witness :
    PolisAPIDataset.load dirAndIdState dirWorld =
      .ok ({ dirAndIdState with conversation_id := some "12345",
                                polis_id := some "12345" },
           { comments := [], votes := [] }) :=
  (c7_directory_override_wins dirAndIdState dirWorld "fixtures"
    { comments := [], votes := [], conversation_id := "12345" }
    (by rfl) (by decide) (by rfl)).2

/-! ## C8 — identifier kind invariant -/

/-- Shape of a successful identifier classification when no import directory
is configured: exactly one of `report_id` / `conversation_id` is set, it
equals the non-empty `polis_id`, and `report_id` is set exactly when that id
starts with the marker `"r"`. -/
theorem classifyIds_ok_shape (s0 s : DatasetState)
    (h : classifyIds s0 = .ok s) (hdir : truthyS s0.import_dir = false)
    (hr0 : s0.report_id = none) (hc0 : s0.conversation_id = none) :
    ∃ pid, s0.polis_id = some pid ∧ s.polis_id = some pid ∧ pid.isEmpty = false ∧
      s.import_dir = s0.import_dir ∧
      ((s.report_id = some pid ∧ s.conversation_id = none ∧ strStartsWith pid "r" = true) ∨
       (s.conversation_id = some pid ∧ s.report_id = none ∧ strStartsWith pid "r" = false)) := by
  by_cases hp : truthyS s0.polis_id = true
  · obtain ⟨p, hpeq, hpne⟩ : ∃ p, s0.polis_id = some p ∧ p.isEmpty = false := by
      cases hq : s0.polis_id with
      | none => rw [hq] at hp; simp [truthyS] at hp
      | some p =>
        refine ⟨p, rfl, ?_⟩
        rw [hq] at hp
        simpa [truthyS] using hp
    have hp' : truthyS (some p) = true := hpeq ▸ hp
    refine ⟨p, hpeq, ?_⟩
    by_cases hrr : strStartsWith p "r" = true
    · have hs : s = { s0 with polis_id := some p, report_id := some p } := by
        simp [classifyIds, hdir, hp', hpeq, hrr] at h
        exact h.symm
      subst hs
      simp [hpne, hc0, hrr]
    · have hrr' : strStartsWith p "r" = false := by
        simpa using hrr
      by_cases hd : (p.data.head?.getD ' ').isDigit = true
      · have hs : s = { s0 with polis_id := some p, conversation_id := some p } := by
          simp [classifyIds, hdir, hp', hpeq, hrr', hd] at h
          exact h.symm
        subst hs
        simp [hpne, hr0, hrr']
      · exfalso
        simp [classifyIds, hdir, hp', hpeq, hrr', hd] at h
  · exfalso
    simp [classifyIds, hdir, hp] at h

/-- C8: For every successfully constructed `PolisAPIDataset` without a
directory override: the identifier is classified Report if and only if its
canonical id (`polis_id`) starts with the marker `"r"` — equivalently,
exactly one of `report_id` / `conversation_id` is set, and report ids
always carry the leading marker while conversation ids never do. -/
theorem c8_report_marker_invariant (polis_id base_url : Option String)
    (polis_url : Option UrlParts) (repair : Bool) (import_dir : Option String)
    (s : DatasetState)
    (h : PolisAPIDataset.init polis_id base_url polis_url repair import_dir = .ok s)
    (hdir : truthyS import_dir = false) :
    ∃ pid, s.polis_id = some pid ∧ pid.isEmpty = false ∧
      ((s.report_id = some pid ∧ s.conversation_id = none ∧ strStartsWith pid "r" = true) ∨
       (s.conversation_id = some pid ∧ s.report_id = none ∧ strStartsWith pid "r" = false)) := by
  cases polis_url with
  | some u =>
    simp only [PolisAPIDataset.init] at h
    by_cases hb : (truthyS polis_id || truthyS base_url) = true
    · rw [if_pos hb] at h
      exact absurd h (by simp)
    · rw [if_neg hb] at h
      cases hparse : _parse_polis_url u with
      | error e => rw [hparse] at h; exact absurd h (by simp)
      | ok pr =>
        obtain ⟨b0, pid0⟩ := pr
        rw [hparse] at h
        simp only [] at h
        obtain ⟨pid, _, h2, h3, _, h5⟩ := classifyIds_ok_shape _ s h hdir rfl rfl
        exact ⟨pid, h2, h3, h5⟩
  | none =>
    simp only [PolisAPIDataset.init] at h
    obtain ⟨pid, _, h2, h3, _, h5⟩ := classifyIds_ok_shape _ s h hdir rfl rfl
    exact ⟨pid, h2, h3, h5⟩

/-- Witness for C8 at the concrete conversation id `"123"`: construction
succeeds and the invariant holds at the resulting state. -/
theorem c8_report_marker_invariant_witness :
    ∃ pid,
      (DatasetState.mk (some "123") "https://pol.is" none true none none
        (some "123")).polis_id = some pid ∧
      pid.isEmpty = false ∧
      (((DatasetState.mk (some "123") "https://pol.is" none true none none
          (some "123")).report_id = some pid ∧
        (DatasetState.mk (some "123") "https://pol.is" none true none none
          (some "123")).conversation_id = none ∧ strStartsWith pid "r" = true) ∨
       ((DatasetState.mk (some "123") "https://pol.is" none true none none
          (some "123")).conversation_id = some pid ∧
        (DatasetState.mk (some "123") "https://pol.is" none true none none
          (some "123")).report_id = none ∧ strStartsWith pid "r" = false)) :=
  c8_report_marker_invariant (some "123") none none true none
    (DatasetState.mk (some "123") "https://pol.is" none true none none (some "123"))
    (by rfl) (by rfl)

/-! ## C4 — conversation-URL classification (corrected) -/

/-- Counterexample to C4 as stated: the URL
`https://polis.example.com/a/xyz` has second-to-last path segment `"a"`
(not `"report"`) and last segment `"xyz"` not beginning with `"r"`, yet
construction does not succeed: `_parse_polis_url` accepts it, but
`__init__`'s id classification (polis_api.py lines 85-92) rejects the
non-digit-leading id with a `ValueError`, so the error cases are not
limited to identifiers carrying the Report marker. -/
theorem c4_counterexample :
    PolisAPIDataset.init none none
        (some { scheme := "https", netloc := "polis.example.com", path := "/a/xyz" })
        true none =
      .error "polis_id must start with 'r' (for report_id) or a digit (for conversation_id)" := by
  rfl

/-- C4 (amended): For every combined URL whose path does not name a report
(`isReportPath` false) and whose non-empty last segment does not begin with
the Report marker `"r"`, URL parsing succeeds with that segment as the id,
but dataset construction succeeds — classifying the identifier as
Conversation — only when the segment begins with a digit; a segment
beginning with any other non-digit character is rejected by the id
classification, so it is an error not only when the identifier already
carries the Report marker. -/
theorem c4_conversation_url_classification (u : UrlParts) (rep : Bool) (lastSeg : String)
    (hlast : (pathParts u.path).getLast? = some lastSeg)
    (hne : lastSeg.isEmpty = false)
    (hnotrep : isReportPath (pathParts u.path) = false)
    (hr : strStartsWith lastSeg "r" = false) :
    _parse_polis_url u = .ok (u.scheme ++ "://" ++ u.netloc, lastSeg) ∧
    ((lastSeg.data.head?.getD ' ').isDigit = true →
      PolisAPIDataset.init none none (some u) rep none =
        .ok { polis_id := some lastSeg, base_url := u.scheme ++ "://" ++ u.netloc,
              polis_url := some u, repair_is_meta_column := rep, import_dir := none,
              report_id := none, conversation_id := some lastSeg }) ∧
    ((lastSeg.data.head?.getD ' ').isDigit = false →
      PolisAPIDataset.init none none (some u) rep none =
        .error "polis_id must start with 'r' (for report_id) or a digit (for conversation_id)") := by
  have hne' : ¬(lastSeg = "") := by
    intro hcontra
    rw [hcontra] at hne
    simp [String.isEmpty] at hne
  have hparse : _parse_polis_url u = .ok (u.scheme ++ "://" ++ u.netloc, lastSeg) := by
    simp [_parse_polis_url, hlast, hne', hnotrep, hr]
  refine ⟨hparse, ?_, ?_⟩
  · intro hdig
    simp [PolisAPIDataset.init, hparse, classifyIds, truthyS, hne, hr, hdig]
  · intro hdig
    simp [PolisAPIDataset.init, hparse, classifyIds, truthyS, hne, hr, hdig]

/-- Witness for C4 (amended) at `https://h/a/123`: parsing yields id
`"123"` and construction succeeds as a Conversation dataset. -/
theorem c4_conversation_url_classification_witness :
    _parse_polis_url { scheme := "https", netloc := "h", path := "/a/123" } =
      .ok ("https://h", "123") ∧
    PolisAPIDataset.init none none
        (some { scheme := "https", netloc := "h", path := "/a/123" }) true none =
      .ok { polis_id := some "123", base_url := "https://h",
            polis_url := some { scheme := "https", netloc := "h", path := "/a/123" },
            repair_is_meta_column := true, import_dir := none,
            report_id := none, conversation_id := some "123" } := by
  refine ⟨?_, ?_⟩
  · exact (c4_conversation_url_classification
      { scheme := "https", netloc := "h", path := "/a/123" } true "123"
      (by rfl) (by rfl) (by rfl) (by rfl)).1
  · have h := (c4_conversation_url_classification
      { scheme := "https", netloc := "h", path := "/a/123" } true "123"
      (by rfl) (by rfl) (by rfl) (by rfl)).2.1 (by rfl)
    simpa using h

/-! ## C2 — deterministic smallest-island resolution -/

/-- C2: For every participant whose candidate-region list contains more
than one region name, the island chosen by
`assign_participant_coordinates`'s resolution step is a member of the
candidate list of minimal size priority — the smallest region under
`island_size_priority` (e.g. candidates of rank {2,4} resolve to the
rank-2 region), never an arbitrary or first-listed pick. -/
theorem c2_smallest_island_chosen (islands : List String) (h : 1 < islands.length) :
    chooseIsland islands ∈ islands ∧
    ∀ x ∈ islands,
      island_size_priority (chooseIsland islands) ≤ island_size_priority x := by
  have hble : ∀ a b c : String,
      (island_size_priority a ≤ island_size_priority b : Bool) = true →
      (island_size_priority b ≤ island_size_priority c : Bool) = true →
      (island_size_priority a ≤ island_size_priority c : Bool) = true := by
    intro a b c hab hbc
    simp only [decide_eq_true_eq] at *
    omega
  have hbtotal : ∀ a b : String,
      ((island_size_priority a ≤ island_size_priority b : Bool) ||
        (island_size_priority b ≤ island_size_priority a : Bool)) = true := by
    intro a b
    simp only [Bool.or_eq_true, decide_eq_true_eq]
    omega
  have hsorted := List.sorted_mergeSort hble hbtotal islands
  have hperm := List.mergeSort_perm islands
    (fun a b => (island_size_priority a ≤ island_size_priority b : Bool))
  have hch : chooseIsland islands =
      (islands.mergeSort fun a b =>
        (island_size_priority a ≤ island_size_priority b : Bool)).headD "" := by
    simp [chooseIsland, h]
  cases hms : islands.mergeSort
      (fun a b => (island_size_priority a ≤ island_size_priority b : Bool)) with
  | nil =>
    exfalso
    have := hperm.length_eq
    rw [hms] at this
    simp at this
    omega
  | cons hd tl =>
    rw [hms] at hch hperm hsorted
    rw [hch]
    simp only [List.headD_cons]
    constructor
    · exact hperm.mem_iff.mp (List.mem_cons_self hd tl)
    · intro x hx
      have hx' : x ∈ hd :: tl := hperm.mem_iff.mpr hx
      rcases List.mem_cons.mp hx' with heq | htl
      · rw [heq]
      · have := (List.pairwise_cons.mp hsorted).1 x htl
        simpa using this

/-- Witness for C2: candidates San Juan (rank 4) and Lopez (rank 2)
resolve to the rank-2 region, Lopez Island. -/
theorem c2_smallest_island_chosen_witness :
    (chooseIsland ["San Juan Island", "Lopez Island"] ∈
        ["San Juan Island", "Lopez Island"] ∧
      ∀ x ∈ ["San Juan Island", "Lopez Island"],
        island_size_priority (chooseIsland ["San Juan Island", "Lopez Island"]) ≤
          island_size_priority x) ∧
    chooseIsland ["San Juan Island", "Lopez Island"] = "Lopez Island" :=
  ⟨c2_smallest_island_chosen ["San Juan Island", "Lopez Island"] (by decide), by
    have h := c2_smallest_island_chosen ["San Juan Island", "Lopez Island"] (by decide)
    rcases List.mem_cons.mp h.1 with h1 | h1
    · exfalso
      have h2 := h.2 "Lopez Island" (by simp)
      rw [h1] at h2
      simp [island_size_priority] at h2
    · simpa using h1⟩

/-! ## C6 — "Other" assignment and omission in the aggregation -/

/-- Looking up a key absent from the first part of an appended association
list falls through to the second part. -/
theorem lookup_append_of_none {pid : Int} {l₁ l₂ : List (Int × List String)}
    (h : l₁.lookup pid = none) : (l₁ ++ l₂).lookup pid = l₂.lookup pid := by
  induction l₁ with
  | nil => rfl
  | cons a as ih =>
    obtain ⟨k, v⟩ := a
    rw [List.lookup_cons] at h
    rw [List.cons_append, List.lookup_cons]
    cases hk : (pid == k) with
    | true => rw [hk] at h; simp at h
    | false => rw [hk] at h; exact ih h

/-- Looking up a key absent from `l` in the association list pairing each
element of `l` with `f` of it yields nothing. -/
theorem lookup_map_self_none {pid : Int} {l : List Int} (f : Int → List String)
    (h : pid ∉ l) : (l.map fun p => (p, f p)).lookup pid = none := by
  induction l with
  | nil => rfl
  | cons a as ih =>
    rw [List.map_cons, List.lookup_cons]
    have hne : pid ≠ a := fun hc => h (hc ▸ List.mem_cons_self a as)
    have hk : (pid == a) = false := beq_false_of_ne hne
    rw [hk]
    exact ih fun hm => h (List.mem_cons_of_mem a hm)

/-- Looking up a key present in `l` in the association list pairing each
element of `l` with the constant `c` yields `c`. -/
theorem lookup_map_const_some {pid : Int} {l : List Int} (c : List String)
    (h : pid ∈ l) : (l.map fun p => (p, c)).lookup pid = some c := by
  induction l with
  | nil => cases h
  | cons a as ih =>
    rw [List.map_cons, List.lookup_cons]
    by_cases he : pid = a
    · rw [beq_iff_eq.mpr he]
    · rw [beq_false_of_ne he]
      rcases List.mem_cons.mp h with hc | hm
      · exact absurd hc he
      · exact ih hm

/-- A participant with no affirmative island vote is not a key of the
grouped voters. -/
theorem not_mem_votedParticipants {votes : List Vote} {pid : Int}
    (hnovote : ∀ v ∈ votes, v.participant_id = pid →
      ¬(v.vote = 1 ∧ v.statement_id ∈ island_statements)) :
    pid ∉ votedParticipants (filter_votes_for_islands votes) := by
  intro hmem
  unfold votedParticipants at hmem
  rw [List.mem_mergeSort, List.mem_dedup] at hmem
  obtain ⟨v, hv, hvp⟩ := List.mem_map.mp hmem
  unfold filter_votes_for_islands at hv
  rw [List.mem_filter] at hv
  obtain ⟨hv1, hv2⟩ := hv
  rw [List.mem_filter] at hv1
  obtain ⟨hvotes, hvote1⟩ := hv1
  exact hnovote v hvotes hvp
    ⟨by simpa using hvote1, by simpa using hv2⟩

/-- C6: `aggregate_participant_islands` assigns the sentinel region
`"Other"` to every `participant_id` that is in the inclusion mask and has
zero affirmative region votes, and omits entirely (produces no entry for)
every `participant_id` that is outside the inclusion mask and has zero
affirmative region votes. -/
theorem c6_other_sentinel_and_omission (votes : List Vote) (mask : List (Int × Bool))
    (pid : Int)
    (hnovote : ∀ v ∈ votes, v.participant_id = pid →
      ¬(v.vote = 1 ∧ v.statement_id ∈ island_statements)) :
    (((pid, true) ∈ mask) →
      (aggregate_participant_islands (filter_votes_for_islands votes) mask).lookup pid =
        some ["Other"]) ∧
    ((∀ b : Bool, (pid, b) ∈ mask → b = false) →
      (aggregate_participant_islands (filter_votes_for_islands votes) mask).lookup pid =
        none) := by
  have hkeys := not_mem_votedParticipants hnovote
  have hbase : ((votedParticipants (filter_votes_for_islands votes)).map fun p =>
      (p, groupIslands (filter_votes_for_islands votes) p)).lookup pid = none :=
    lookup_map_self_none _ hkeys
  constructor
  · intro hin
    have hinc : pid ∈ (mask.filter fun e => e.2).map fun e => e.1 :=
      List.mem_map.mpr ⟨(pid, true), List.mem_filter.mpr ⟨hin, rfl⟩, rfl⟩
    have hfinc : pid ∈ ((mask.filter fun e => e.2).map fun e => e.1).filter
        fun p => !((votedParticipants (filter_votes_for_islands votes)).contains p) := by
      refine List.mem_filter.mpr ⟨hinc, ?_⟩
      simpa using hkeys
    unfold aggregate_participant_islands
    rw [lookup_append_of_none hbase]
    exact lookup_map_const_some _ hfinc
  · intro hout
    have hninc : pid ∉ (mask.filter fun e => e.2).map fun e => e.1 := by
      intro hmem
      obtain ⟨e, hef, hep⟩ := List.mem_map.mp hmem
      obtain ⟨hem, het⟩ := List.mem_filter.mp hef
      have : e = (pid, true) := by
        obtain ⟨e1, e2⟩ := e
        simp only at hep
        simp only at het
        simp [hep, het]
      rw [this] at hem
      simpa using hout true hem
    unfold aggregate_participant_islands
    rw [lookup_append_of_none hbase]
    exact lookup_map_self_none _ fun hmem =>
      hninc (List.mem_of_mem_filter hmem)

/-- Witness for C6: with one affirmative island vote by participant 2,
included participant 1 (no island votes) maps to `["Other"]` and excluded
participant 3 (no island votes) has no entry. -/
theorem c6_other_sentinel_and_omission_witness :
    (aggregate_participant_islands
        (filter_votes_for_islands [{ participant_id := 2, statement_id := 64, vote := 1 }])
        [(1, true), (3, false)]).lookup 1 = some ["Other"] ∧
    (aggregate_participant_islands
        (filter_votes_for_islands [{ participant_id := 2, statement_id := 64, vote := 1 }])
        [(1, true), (3, false)]).lookup 3 = none :=
  ⟨(c6_other_sentinel_and_omission [{ participant_id := 2, statement_id := 64, vote := 1 }]
      [(1, true), (3, false)] 1 (by decide)).1 (by decide),
   (c6_other_sentinel_and_omission [{ participant_id := 2, statement_id := 64, vote := 1 }]
      [(1, true), (3, false)] 3 (by decide)).2 (by decide)⟩

/-! ## C5 — `random_point_in_polygon` termination (corrected) -/

/-- A polygon whose containment test never accepts any point, standing for a
degenerate geometry (e.g. a zero-area polygon of collinear vertices: not
empty, but containing no sampled point). -/
noncomputable def degeneratePolygon : Polygon where
  minx := 0
  miny := 0
  maxx := 1
  maxy := 1
  contains := fun _ => false
  is_empty := false

/-- On the degenerate polygon, the sampling loop never returns, whatever the
iteration budget and random stream. -/
theorem randomPointInPolygon_degenerate_none (rng : Nat → ℝ) (fuel i : Nat) :
    randomPointInPolygonAux degeneratePolygon rng fuel i = none := by
  induction fuel generalizing i with
  | zero => rfl
  | succ n ih =>
    rw [randomPointInPolygonAux]
    simpa [degeneratePolygon] using ih (i + 2)

/-- Counterexample to C5 as stated: on a degenerate polygon whose
containment test never accepts a sampled point, `random_point_in_polygon`
has returned nothing after one million iterations — there is no safety
iteration bound and no centroid (or any other) fallback; the `while True`
loop of nodes.py lines 130-134 simply never terminates. -/
theorem c5_counterexample :
    randomPointInPolygonAux degeneratePolygon (fun _ => 0) 1000000 0 = none :=
  randomPointInPolygon_degenerate_none (fun _ => 0) 1000000 0

/-- C5 (amended): `random_point_in_polygon` is not total: it has no safety
iteration bound and no fallback point. It returns only by sampling a point
that satisfies polygon containment — whenever the loop yields a point, that
point passes `polygon.contains` — and on a polygon whose containment test
never accepts a sampled point it fails to return within any finite number
of iterations. -/
theorem c5_rejection_sampling_no_bound (poly : Polygon) (rng : Nat → ℝ)
    (fuel i : Nat) (pt : ℝ × ℝ) (j : Nat)
    (h : randomPointInPolygonAux poly rng fuel i = some (pt, j)) :
    poly.contains pt = true := by
  induction fuel generalizing i with
  | zero => exact absurd h (by simp [randomPointInPolygonAux])
  | succ n ih =>
    rw [randomPointInPolygonAux] at h
    by_cases hc : poly.contains
        (pyUniform poly.minx poly.maxx (rng i),
         pyUniform poly.miny poly.maxy (rng (i + 1))) = true
    · rw [if_pos hc] at h
      obtain ⟨hp, _⟩ := Prod.mk.injEq .. ▸ (Option.some.injEq .. ▸ h)
      rw [← hp]
      exact hc
    · rw [if_neg hc] at h
      exact ih (i + 2) h

/-- Witness for C5 (amended): on a polygon accepting every point, one
iteration returns the first sampled box point, and it satisfies
containment. -/
theorem c5_rejection_sampling_no_bound_witness :
    (Polygon.mk 0 0 1 1 (fun _ => true) false).contains
      (pyUniform 0 1 0, pyUniform 0 1 0) = true :=
  c5_rejection_sampling_no_bound (Polygon.mk 0 0 1 1 (fun _ => true) false)
    (fun _ => 0) 1 0 (pyUniform 0 1 0, pyUniform 0 1 0) 2 (by rfl)

/-! ## C3 — which participants receive a placement feature (corrected) -/

/-- The participant ids of the emitted features are exactly the input
participants whose resolved island is emittable (`"Other"`, or present in
`island_shapes` with a truthy geometry), in input order, for any start
index of the random stream. -/
theorem assignGo_participant_ids (island_shapes : List (String × Polygon))
    (rng : Nat → ℝ) (fuel : Nat) (l : List (Int × List String)) :
    ∀ (i : Nat) (out : List Feature),
      assignGo island_shapes rng fuel l i = some out →
      out.map (fun f => f.participant_id) =
        (l.filter fun e => emitsFeature island_shapes e.2).map fun e => e.1 := by
  induction l with
  | nil =>
    intro i out h
    rw [assignGo] at h
    simp only [Option.some.injEq] at h
    rw [← h]
    rfl
  | cons hd rest ih =>
    intro i out h
    obtain ⟨pid, islands⟩ := hd
    rw [assignGo] at h
    by_cases ho : (chooseIsland islands == "Other") = true
    · rw [if_pos ho] at h
      obtain ⟨out', h1, h2⟩ := Option.map_eq_some'.mp h
      have hemit : emitsFeature island_shapes islands = true := by
        simp [emitsFeature, ho]
      simp only [← h2, List.map_cons, List.filter_cons, hemit, if_true]
      exact congrArg _ (ih (i + 2) out' h1)
    · rw [if_neg ho] at h
      cases hl : island_shapes.lookup (chooseIsland islands) with
      | none =>
        rw [hl] at h
        have hemit : emitsFeature island_shapes islands = false := by
          simp [emitsFeature, hl, Bool.or_eq_true]
          simpa using ho
        simp only [List.filter_cons, hemit, if_false, Bool.false_eq_true]
        exact ih i out h
      | some poly =>
        rw [hl] at h
        simp only [] at h
        by_cases he : poly.is_empty = true
        · rw [if_pos he] at h
          have hemit : emitsFeature island_shapes islands = false := by
            simp only [emitsFeature, hl, Bool.or_eq_false_iff]
            exact ⟨by simpa using ho, by simp [he]⟩
          simp only [List.filter_cons, hemit, if_false, Bool.false_eq_true]
          exact ih i out h
        · rw [if_neg he] at h
          cases hp : randomPointInPolygonAux poly rng fuel i with
          | none => rw [hp] at h; exact absurd h (by simp)
          | some ptj =>
            obtain ⟨pt, j⟩ := ptj
            rw [hp] at h
            obtain ⟨out', h1, h2⟩ := Option.map_eq_some'.mp h
            have hemit : emitsFeature island_shapes islands = true := by
              simp [emitsFeature, hl, he]
            simp only [← h2, List.map_cons, List.filter_cons, hemit, if_true]
            exact congrArg _ (ih j out' h1)

/-- Counterexample to C3 as stated: participant 1 resolves to
`"Orcas Island"`, which has no entry in the (here empty) `island_shapes`
mapping, so the `if poly:` guard of nodes.py lines 194-195 silently drops
the participant: the run succeeds yet emits no feature for a participant
present in `participant_islands` with a resolved region — an undocumented
omission beyond the "no candidate region and not included" rule. -/
theorem c3_counterexample :
    assign_participant_coordinates [(1, ["Orcas Island"])] [] (fun _ => 0) 0 =
      some [] := by
  rfl

/-- C3 (amended): on a successful run, `assign_participant_coordinates`
emits exactly one placement feature, in order, for every participant of
`participant_islands` whose resolved region is the sentinel `"Other"` or
has a truthy geometry in `island_shapes` — and none for a participant whose
resolved region is missing from `island_shapes` (or whose geometry is
falsy), which the `if poly:` guard silently drops. -/
theorem c3_emitted_participants (participant_islands : List (Int × List String))
    (island_shapes : List (String × Polygon)) (rng : Nat → ℝ) (fuel : Nat)
    (out : List Feature)
    (h : assign_participant_coordinates participant_islands island_shapes rng fuel =
      some out) :
    out.map (fun f => f.participant_id) =
      (participant_islands.filter fun e => emitsFeature island_shapes e.2).map
        fun e => e.1 :=
  assignGo_participant_ids island_shapes rng fuel participant_islands 0 out h

/-- Witness for C3 (amended): one "Other" participant and one participant
dropped by the missing-shape guard; the emitted ids are exactly the
emittable ones. -/
theorem c3_emitted_participants_witness :
    [Feature.mk 1 "Other" (otherRegionCoords 0 0)].map (fun f => f.participant_id) =
      (([((1 : Int), ["Other"]), ((2 : Int), ["Orcas Island"])].filter
        fun e => emitsFeature [] e.2).map fun e => e.1) :=
  c3_emitted_participants [(1, ["Other"]), (2, ["Orcas Island"])] [] (fun _ => 0) 0
    [Feature.mk 1 "Other" (otherRegionCoords 0 0)] (by rfl)

/-! ## C9 — sentinel-disk sampling formula and radius bound -/

/-- C9: For every sentinel-region (`"Other"`) placement, the coordinate is
computed from two unit uniform draws `u1`, `u2` as
`(cx + R·sqrt(u2)·cos(2π·u1), cy + R·sqrt(u2)·sin(2π·u1))` with fixed
center `(cx, cy) = (-122.5, 48.5)` and fixed radius `R = 0.1` — the radius
uses `R·sqrt(u2)`, not `R·u2` — so every sampled point lies within distance
`R` of the fixed center (stated as squared distance at most `R²`). -/
theorem c9_other_disk_formula_and_bound (u1 u2 : ℝ) (h0 : 0 ≤ u2) (h1 : u2 ≤ 1) :
    otherRegionCoords u1 u2 =
      (-122.5 + 0.1 * Real.sqrt u2 * Real.cos (2 * Real.pi * u1),
       48.5 + 0.1 * Real.sqrt u2 * Real.sin (2 * Real.pi * u1)) ∧
    ((otherRegionCoords u1 u2).1 - (-122.5)) ^ 2 +
      ((otherRegionCoords u1 u2).2 - 48.5) ^ 2 ≤ (0.1 : ℝ) ^ 2 := by
  have harg : pyUniform 0 (2 * Real.pi) u1 = 2 * Real.pi * u1 := by
    unfold pyUniform; ring
  have hrad : pyUniform 0 1 u2 = u2 := by
    unfold pyUniform; ring
  have hform : otherRegionCoords u1 u2 =
      (-122.5 + 0.1 * Real.sqrt u2 * Real.cos (2 * Real.pi * u1),
       48.5 + 0.1 * Real.sqrt u2 * Real.sin (2 * Real.pi * u1)) := by
    unfold otherRegionCoords otherRegionCenter otherRegionRadius
    rw [harg, hrad]
  refine ⟨hform, ?_⟩
  rw [hform]
  have hsq : Real.sqrt u2 ^ 2 = u2 := Real.sq_sqrt h0
  have htrig := Real.sin_sq_add_cos_sq (2 * Real.pi * u1)
  have hnn := Real.sqrt_nonneg u2
  nlinarith [hsq, htrig, hnn]

/-- Witness for C9 at the draws `u1 = 0`, `u2 = 1`: the formula holds and
the sampled point lies on the disk of radius 0.1 around the fixed center. -/
theorem c9_other_disk_formula_and_bound_witness :
    otherRegionCoords 0 1 =
      (-122.5 + 0.1 * Real.sqrt 1 * Real.cos (2 * Real.pi * 0),
       48.5 + 0.1 * Real.sqrt 1 * Real.sin (2 * Real.pi * 0)) ∧
    ((otherRegionCoords 0 1).1 - (-122.5)) ^ 2 +
      ((otherRegionCoords 0 1).2 - 48.5) ^ 2 ≤ (0.1 : ℝ) ^ 2 :=
  c9_other_disk_formula_and_bound 0 1 (by norm_num) (by norm_num)
